import Mathlib

/-!
Verification of the `usbd-hid-device` crate (`src/hidclass.rs`, `src/lib.rs`):
a USB HID class driver built on the `usb-device` stack.

The driver code is embedded shallowly.  The external `usb-device`
collaborators (descriptor writer, control transfer, interrupt endpoint)
are modelled after their documented contract: each is a small state
structure with fallible operations, and the driver functions are direct
translations of the Rust source operating over those states.  Machine
integers are `Nat` with explicit `% 256` where Rust truncates with `as u8`.
-/

namespace UsbdHidDevice

/-- Errors of the `usb-device` stack that this driver can observe:
`WouldBlock` (endpoint busy), `BufferOverflow` (data too large for the
buffer), `InvalidState` (device not configured). -/
inductive UsbError
  | WouldBlock
  | BufferOverflow
  | InvalidState
  deriving DecidableEq, Repr

/-- `control::Recipient` of the `usb-device` crate. -/
inductive Recipient
  | Device
  | Interface
  | Endpoint
  | Other
  deriving DecidableEq, Repr

/-- `control::RequestType` of the `usb-device` crate. -/
inductive RequestType
  | Standard
  | Class
  | Vendor
  | Reserved
  deriving DecidableEq, Repr

/-- `control::Request::GET_DESCRIPTOR` request code (standard USB, value 6). -/
def GET_DESCRIPTOR : Nat := 6

/-- A USB control request as exposed by `usb-device`:
recipient, request type, request code (u8), wValue (u16), wIndex (u16). -/
structure ControlRequest where
  recipient : Recipient
  request_type : RequestType
  request : Nat
  value : Nat
  index : Nat
  deriving DecidableEq, Repr

/-- `Request::descriptor_type_index`: splits wValue into
`((value >> 8) as u8, value as u8)`. -/
def ControlRequest.descriptor_type_index (req : ControlRequest) : Nat × Nat :=
  (req.value / 256 % 256, req.value % 256)

/-- Model of the `ControlIn` transfer object of `usb-device`, per the spec's
external-interface contract: it carries the request, may be accepted with a
static reply at most once, and `accept_with_static` is fallible (the reply
must fit the control pipe's buffer, abstracted as `capacity`).
`accept_attempts` counts calls to `accept_with_static`, successful or not,
so that "claimed exactly once" is observable. -/
structure ControlIn where
  request : ControlRequest
  capacity : Nat
  reply : Option (List Nat)
  accept_attempts : Nat
  deriving DecidableEq, Repr

/-- `ControlIn::accept_with_static(bytes)`: attach a static reply.
Fails with `BufferOverflow` if the bytes do not fit the control buffer;
on failure the reply stays unset.  Returns the updated transfer and the
`Result` the Rust call returns. -/
def ControlIn.accept_with_static (x : ControlIn) (bytes : List Nat) :
    ControlIn × Except UsbError Unit :=
  if bytes.length ≤ x.capacity then
    ({ x with reply := some bytes, accept_attempts := x.accept_attempts + 1 }, .ok ())
  else
    ({ x with accept_attempts := x.accept_attempts + 1 }, .error .BufferOverflow)

/-- Model of a `usb-device` interrupt-IN endpoint: allocation-time fields
(`address`, `max_packet_size`, `interval`) fixed by the allocator, and
runtime state: whether the bus is configured and the single in-flight
outbound packet slot. -/
structure EndpointIn where
  address : Nat
  max_packet_size : Nat
  interval : Nat
  configured : Bool
  in_flight : Option (List Nat)
  deriving DecidableEq, Repr

/-- `EndpointIn::write(data)`, per the spec's endpoint-write contract:
queue one outbound packet; fails with `InvalidState` when the device is not
configured, `WouldBlock` when the single slot is occupied, `BufferOverflow`
when the data exceeds the max packet size; on success returns the number of
bytes accepted.  On failure the endpoint state is unchanged. -/
def EndpointIn.write (ep : EndpointIn) (data : List Nat) :
    EndpointIn × Except UsbError Nat :=
  if ep.configured = false then (ep, .error .InvalidState)
  else if ep.in_flight.isSome then (ep, .error .WouldBlock)
  else if ep.max_packet_size < data.length then (ep, .error .BufferOverflow)
  else ({ ep with in_flight := some data }, .ok data.length)

/-- `pub const USB_CLASS_HID: u8 = 0x03`. -/
def USB_CLASS_HID : Nat := 0x03
/-- `const USB_SUBCLASS_HID: u8 = 0x00`. -/
def USB_SUBCLASS_HID : Nat := 0x00
/-- `const USB_PROTOCOL_HID: u8 = 0x00`. -/
def USB_PROTOCOL_HID : Nat := 0x00
/-- `const HID_VER: [u8; 2] = [0x10, 0x01]`. -/
def HID_VER : List Nat := [0x10, 0x01]
/-- `const HID_COUNTRY_NONE: u8 = 0x00`. -/
def HID_COUNTRY_NONE : Nat := 0x00
/-- `const DT_HID: u8 = 0x21`. -/
def DT_HID : Nat := 0x21
/-- `const DT_REPORT: u8 = 0x22`. -/
def DT_REPORT : Nat := 0x22

/-- The `Hid` driver: an interface number (`data_if`, a u8 issued by the
allocator), the interrupt-IN endpoint (`write_ep`), and the bound
`R::DESCRIPTOR` bytes of the report type parameter. -/
structure Hid where
  data_if : Nat
  write_ep : EndpointIn
  descriptor : List Nat
  deriving DecidableEq, Repr

/-- `Hid::new(alloc, poll_ms)`: bind the report descriptor, take a fresh
interface number and a fresh interrupt-IN endpoint with max packet size 64
and the given polling interval. -/
def Hid.new (descriptor : List Nat) (iface : Nat) (ep_address : Nat)
    (poll_ms : Nat) : Hid :=
  { data_if := iface
    write_ep :=
      { address := ep_address
        max_packet_size := 64
        interval := poll_ms
        configured := false
        in_flight := none }
    descriptor := descriptor }

/-- `Hid::send_report(report)`: `self.write_ep.write(report.as_ref())` —
one write attempt on the endpoint, returning its result unchanged. -/
def Hid.send_report (hid : Hid) (reportBytes : List Nat) :
    Hid × Except UsbError Nat :=
  let (ep, r) := hid.write_ep.write reportBytes
  ({ hid with write_ep := ep }, r)

/-- `Hid::get_descriptor(xfer)`: if the descriptor type/index of the request
is `(DT_REPORT, 0)`, `xfer.accept_with_static(R::DESCRIPTOR).ok()` —
the `Result` is discarded; otherwise the transfer is untouched. -/
def Hid.get_descriptor (hid : Hid) (xfer : ControlIn) : ControlIn :=
  let ti := xfer.request.descriptor_type_index
  if ti.1 = DT_REPORT ∧ ti.2 = 0 then
    (xfer.accept_with_static hid.descriptor).1
  else
    xfer

/-- `Hid::control_in(xfer)` (from `impl UsbClass for Hid`): return early
unless recipient = Interface and wIndex equals this interface number
(u8 widened to u16); then dispatch `(Standard, GET_DESCRIPTOR)` to
`get_descriptor` and ignore everything else.  The Rust receiver is
`&mut self`; state passing makes that explicit, so the function returns
the driver state alongside the transfer. -/
def Hid.control_in (hid : Hid) (xfer : ControlIn) : Hid × ControlIn :=
  let req := xfer.request
  if ¬(req.recipient = Recipient.Interface ∧ req.index = hid.data_if % 256) then
    (hid, xfer)
  else
    if req.request_type = RequestType.Standard ∧ req.request = GET_DESCRIPTOR then
      (hid, hid.get_descriptor xfer)
    else
      (hid, xfer)

/-- A record handed to the `usb-device` `DescriptorWriter`:
`writer.interface(..)`, `writer.write(dt, bytes)` or `writer.endpoint(..)`. -/
inductive DescriptorRecord
  | iface (num cls subcls proto : Nat)
  | raw (dt : Nat) (bytes : List Nat)
  | endpoint (address max_packet_size interval : Nat)
  deriving DecidableEq, Repr

/-- Model of the `usb-device` `DescriptorWriter`, per the spec's
external-interface contract: an append-only record list, each write fallible
with a buffer-exhausted condition.  `budget` abstracts the remaining buffer:
a write succeeds while the budget is positive and fails with
`BufferOverflow` once it is exhausted. -/
structure DescriptorWriter where
  records : List DescriptorRecord
  budget : Nat
  deriving DecidableEq, Repr

/-- One fallible write on the `DescriptorWriter` (the writer is `&mut` in
Rust, so the updated writer is returned together with the `Result`;
on failure the records are unchanged). -/
def DescriptorWriter.push (w : DescriptorWriter) (r : DescriptorRecord) :
    DescriptorWriter × Except UsbError Unit :=
  match w.budget with
  | 0 => (w, .error .BufferOverflow)
  | n + 1 => ({ records := w.records ++ [r], budget := n }, .ok ())

/-- The 7-byte payload passed to `writer.write(DT_HID, ..)`:
`[HID_VER[0], HID_VER[1], HID_COUNTRY_NONE, 0x01, DT_REPORT,
len as u8, (len >> 8) as u8]` for `len = R::DESCRIPTOR.len()`. -/
def hidDescriptorPayload (descriptor : List Nat) : List Nat :=
  [0x10, 0x01, 0x00, 0x01, 0x22,
   descriptor.length % 256, descriptor.length / 256 % 256]

/-- `Hid::get_configuration_descriptors(writer)`: write the interface
descriptor, the raw HID class descriptor (type `DT_HID`) and the endpoint
descriptor, each followed by `?` — on the first failure the error is
returned as is and no further write happens. -/
def Hid.get_configuration_descriptors (hid : Hid) (w : DescriptorWriter) :
    DescriptorWriter × Except UsbError Unit :=
  let (w, r) := w.push (.iface hid.data_if USB_CLASS_HID USB_SUBCLASS_HID
    USB_PROTOCOL_HID)
  match r with
  | .error e => (w, .error e)
  | .ok _ =>
    let (w, r) := w.push (.raw DT_HID (hidDescriptorPayload hid.descriptor))
    match r with
    | .error e => (w, .error e)
    | .ok _ =>
      let (w, r) := w.push (.endpoint hid.write_ep.address
        hid.write_ep.max_packet_size hid.write_ep.interval)
      match r with
      | .error e => (w, .error e)
      | .ok _ => (w, .ok ())

/-! ## Helper lemmas -/

/-- `control_in` returns the driver state it was given, in every branch. -/
theorem Hid.control_in_fst (hid : Hid) (xfer : ControlIn) :
    (hid.control_in xfer).1 = hid := by
  unfold Hid.control_in
  dsimp only
  split
  · rfl
  · split <;> rfl

/-- `send_report` in pair-projection form: the driver keeps everything but
the endpoint, which becomes the endpoint state returned by the write. -/
theorem Hid.send_report_eq (hid : Hid) (reportBytes : List Nat) :
    hid.send_report reportBytes =
      ({ hid with write_ep := (hid.write_ep.write reportBytes).1 },
       (hid.write_ep.write reportBytes).2) := by
  unfold Hid.send_report
  rcases h : hid.write_ep.write reportBytes with ⟨ep, r⟩
  simp [h]

/-- The endpoint write never touches the allocation fields. -/
theorem EndpointIn.write_preserves_alloc (ep : EndpointIn)
    (data : List Nat) :
    (ep.write data).1.address = ep.address ∧
    (ep.write data).1.max_packet_size = ep.max_packet_size ∧
    (ep.write data).1.interval = ep.interval := by
  unfold EndpointIn.write
  split
  · simp
  · split
    · simp
    · split <;> simp

/-- Descriptor emission reads only the interface number, the bound report
descriptor and the endpoint's allocation fields: two drivers agreeing on
those produce the same writer output. -/
theorem Hid.get_configuration_descriptors_congr (h1 h2 : Hid)
    (hif : h1.data_if = h2.data_if)
    (hdesc : h1.descriptor = h2.descriptor)
    (haddr : h1.write_ep.address = h2.write_ep.address)
    (hmp : h1.write_ep.max_packet_size = h2.write_ep.max_packet_size)
    (hint : h1.write_ep.interval = h2.write_ep.interval)
    (w : DescriptorWriter) :
    h1.get_configuration_descriptors w = h2.get_configuration_descriptors w := by
  unfold Hid.get_configuration_descriptors
  rw [hif, hdesc, haddr, hmp, hint]

/-! ## Claims -/

/-- C1: a control-in request with recipient = Interface, index equal to this
driver's interface number, request-type = Standard, request-code =
GET_DESCRIPTOR, descriptor-type = Report (0x22) and descriptor-index = 0
is claimed, and exactly the bound ReportDescriptor bytes are attached as
the reply, with exactly one accept call. -/
theorem control_in_claims_get_report_descriptor
    (hid : Hid) (xfer : ControlIn)
    (hif : hid.data_if < 256)
    (hrec : xfer.request.recipient = Recipient.Interface)
    (hidx : xfer.request.index = hid.data_if)
    (hty : xfer.request.request_type = RequestType.Standard)
    (hreq : xfer.request.request = GET_DESCRIPTOR)
    (hdt : xfer.request.descriptor_type_index = (DT_REPORT, 0))
    (hcap : hid.descriptor.length ≤ xfer.capacity) :
    hid.control_in xfer =
      (hid, { xfer with reply := some hid.descriptor,
                        accept_attempts := xfer.accept_attempts + 1 }) := by
  unfold Hid.control_in Hid.get_descriptor ControlIn.accept_with_static
  simp [hrec, hidx, hty, hreq, hdt, hcap, Nat.mod_eq_of_lt hif]

/-- Witness for C1: a concrete matching request is claimed and answered
with the descriptor bytes. -/
theorem control_in_claims_get_report_descriptor_witness :
    Hid.control_in
        { data_if := 1
          write_ep := { address := 0x81, max_packet_size := 64, interval := 10,
                        configured := true, in_flight := none }
          descriptor := [0xa1, 0x01, 0xc0] }
        { request := { recipient := Recipient.Interface,
                       request_type := RequestType.Standard,
                       request := 6, value := 0x2200, index := 1 }
          capacity := 128, reply := none, accept_attempts := 0 } =
      ({ data_if := 1
         write_ep := { address := 0x81, max_packet_size := 64, interval := 10,
                       configured := true, in_flight := none }
         descriptor := [0xa1, 0x01, 0xc0] },
       { request := { recipient := Recipient.Interface,
                      request_type := RequestType.Standard,
                      request := 6, value := 0x2200, index := 1 }
         capacity := 128, reply := some [0xa1, 0x01, 0xc0],
         accept_attempts := 1 }) :=
  control_in_claims_get_report_descriptor _ _
    (by decide) rfl rfl rfl rfl (by decide) (by decide)

/-- C3: a control-in request whose recipient is not Interface or whose
index differs from this driver's interface number is left completely
untouched (not claimed), whatever the other fields are. -/
theorem control_in_ignores_foreign_requests
    (hid : Hid) (xfer : ControlIn)
    (hif : hid.data_if < 256)
    (hm : xfer.request.recipient ≠ Recipient.Interface ∨
          xfer.request.index ≠ hid.data_if) :
    hid.control_in xfer = (hid, xfer) := by
  unfold Hid.control_in
  rw [Nat.mod_eq_of_lt hif]
  rcases hm with h | h <;> simp [h]

/-- Witness for C3: a GET_DESCRIPTOR(Report) request aimed at interface 2
is ignored by the driver bound to interface 1. -/
theorem control_in_ignores_foreign_requests_witness :
    Hid.control_in
        { data_if := 1
          write_ep := { address := 0x81, max_packet_size := 64, interval := 10,
                        configured := true, in_flight := none }
          descriptor := [0xa1, 0x01, 0xc0] }
        { request := { recipient := Recipient.Interface,
                       request_type := RequestType.Standard,
                       request := 6, value := 0x2200, index := 2 }
          capacity := 128, reply := none, accept_attempts := 0 } =
      ({ data_if := 1
         write_ep := { address := 0x81, max_packet_size := 64, interval := 10,
                       configured := true, in_flight := none }
         descriptor := [0xa1, 0x01, 0xc0] },
       { request := { recipient := Recipient.Interface,
                      request_type := RequestType.Standard,
                      request := 6, value := 0x2200, index := 2 }
         capacity := 128, reply := none, accept_attempts := 0 }) :=
  control_in_ignores_foreign_requests _ _ (by decide) (Or.inr (by decide))

/-- C4: a control-in request that does match the recipient and interface
number but asks for anything other than a Standard GET_DESCRIPTOR of
descriptor-type Report (0x22) with descriptor-index 0 is left unclaimed:
the transfer comes back unchanged, with no reply attached and no accept
call made. -/
theorem control_in_leaves_other_requests_unclaimed
    (hid : Hid) (xfer : ControlIn)
    (hif : hid.data_if < 256)
    (hrec : xfer.request.recipient = Recipient.Interface)
    (hidx : xfer.request.index = hid.data_if)
    (hsel : xfer.request.request_type ≠ RequestType.Standard ∨
            xfer.request.request ≠ GET_DESCRIPTOR ∨
            xfer.request.descriptor_type_index.1 ≠ DT_REPORT ∨
            xfer.request.descriptor_type_index.2 ≠ 0) :
    hid.control_in xfer = (hid, xfer) := by
  unfold Hid.control_in Hid.get_descriptor
  rw [Nat.mod_eq_of_lt hif]
  rcases hsel with h | h | h | h <;> simp [hrec, hidx, h]

/-- Witness for C4: a GET_DESCRIPTOR for descriptor-type HID (0x21) on the
matching interface is left unclaimed. -/
theorem control_in_leaves_other_requests_unclaimed_witness :
    Hid.control_in
        { data_if := 1
          write_ep := { address := 0x81, max_packet_size := 64, interval := 10,
                        configured := true, in_flight := none }
          descriptor := [0xa1, 0x01, 0xc0] }
        { request := { recipient := Recipient.Interface,
                       request_type := RequestType.Standard,
                       request := 6, value := 0x2100, index := 1 }
          capacity := 128, reply := none, accept_attempts := 0 } =
      ({ data_if := 1
         write_ep := { address := 0x81, max_packet_size := 64, interval := 10,
                       configured := true, in_flight := none }
         descriptor := [0xa1, 0x01, 0xc0] },
       { request := { recipient := Recipient.Interface,
                      request_type := RequestType.Standard,
                      request := 6, value := 0x2100, index := 1 }
         capacity := 128, reply := none, accept_attempts := 0 }) :=
  control_in_leaves_other_requests_unclaimed _ _ (by decide) rfl rfl
    (Or.inr (Or.inr (Or.inl (by decide))))

/-- C10: on a claimed GET_DESCRIPTOR(Report) request the driver's result is
exactly the transfer state of `accept_with_static` with its `Result`
component dropped (`.ok()`), whether the accept succeeds or fails; in
particular on a failed accept the driver still returns normally, with no
reply attached and no error surfaced to the stack. -/
theorem control_in_discards_accept_result
    (hid : Hid) (xfer : ControlIn)
    (hif : hid.data_if < 256)
    (hrec : xfer.request.recipient = Recipient.Interface)
    (hidx : xfer.request.index = hid.data_if)
    (hty : xfer.request.request_type = RequestType.Standard)
    (hreq : xfer.request.request = GET_DESCRIPTOR)
    (hdt : xfer.request.descriptor_type_index = (DT_REPORT, 0)) :
    hid.control_in xfer = (hid, (xfer.accept_with_static hid.descriptor).1) ∧
    (xfer.capacity < hid.descriptor.length →
      (hid.control_in xfer).2.reply = xfer.reply) := by
  have h1 : hid.control_in xfer =
      (hid, (xfer.accept_with_static hid.descriptor).1) := by
    unfold Hid.control_in Hid.get_descriptor
    simp [hrec, hidx, hty, hreq, hdt, Nat.mod_eq_of_lt hif]
  refine ⟨h1, fun hc => ?_⟩
  rw [h1]
  unfold ControlIn.accept_with_static
  simp [Nat.not_le.mpr hc]

/-- Witness for C10: the reply does not fit the control buffer, the accept
fails, yet the driver returns the transfer unchanged but for the attempt
counter — indistinguishable from success at the driver's boundary. -/
theorem control_in_discards_accept_result_witness :
    (Hid.control_in
        { data_if := 1
          write_ep := { address := 0x81, max_packet_size := 64, interval := 10,
                        configured := true, in_flight := none }
          descriptor := [0xa1, 0x01, 0xc0] }
        { request := { recipient := Recipient.Interface,
                       request_type := RequestType.Standard,
                       request := 6, value := 0x2200, index := 1 }
          capacity := 2, reply := none, accept_attempts := 0 } =
      ({ data_if := 1
         write_ep := { address := 0x81, max_packet_size := 64, interval := 10,
                       configured := true, in_flight := none }
         descriptor := [0xa1, 0x01, 0xc0] },
       (ControlIn.accept_with_static
          { request := { recipient := Recipient.Interface,
                         request_type := RequestType.Standard,
                         request := 6, value := 0x2200, index := 1 }
            capacity := 2, reply := none, accept_attempts := 0 }
          [0xa1, 0x01, 0xc0]).1)) ∧
    ((Hid.control_in
        { data_if := 1
          write_ep := { address := 0x81, max_packet_size := 64, interval := 10,
                        configured := true, in_flight := none }
          descriptor := [0xa1, 0x01, 0xc0] }
        { request := { recipient := Recipient.Interface,
                       request_type := RequestType.Standard,
                       request := 6, value := 0x2200, index := 1 }
          capacity := 2, reply := none, accept_attempts := 0 }).2.reply = none) :=
  ⟨(control_in_discards_accept_result _ _
      (by decide) rfl rfl rfl rfl (by decide)).1,
   (control_in_discards_accept_result _ _
      (by decide) rfl rfl rfl rfl (by decide)).2 (by decide)⟩

/-- C2: with enough writer budget, the record written with type 0x21 is
exactly the 7 bytes `[0x10, 0x01, 0x00, 0x01, 0x22, len % 256, len / 256]`,
and for every descriptor length up to 65535 the two length bytes, read
little-endian, recover the exact length. -/
theorem hid_descriptor_record_encodes_length
    (hid : Hid) (w : DescriptorWriter)
    (hlen : hid.descriptor.length ≤ 65535)
    (hb : 3 ≤ w.budget) :
    (hid.get_configuration_descriptors w).1.records =
      w.records ++
        [DescriptorRecord.iface hid.data_if 0x03 0x00 0x00,
         DescriptorRecord.raw 0x21
           [0x10, 0x01, 0x00, 0x01, 0x22,
            hid.descriptor.length % 256, hid.descriptor.length / 256],
         DescriptorRecord.endpoint hid.write_ep.address
           hid.write_ep.max_packet_size hid.write_ep.interval] ∧
    hid.descriptor.length % 256 + 256 * (hid.descriptor.length / 256) =
      hid.descriptor.length := by
  obtain ⟨recs, b⟩ := w
  have hb' : 3 ≤ b := hb
  obtain ⟨n, rfl⟩ : ∃ n, b = n + 3 := ⟨b - 3, by omega⟩
  have hd : hid.descriptor.length / 256 % 256 = hid.descriptor.length / 256 :=
    Nat.mod_eq_of_lt (by omega)
  refine ⟨?_, by omega⟩
  simp [Hid.get_configuration_descriptors, DescriptorWriter.push,
    hidDescriptorPayload, USB_CLASS_HID, USB_SUBCLASS_HID, USB_PROTOCOL_HID,
    DT_HID, hd]

/-- Witness for C2: a 52-byte ReportDescriptor yields the HID descriptor
record bytes `10 01 00 01 22 34 00`. -/
theorem hid_descriptor_record_encodes_length_witness :
    ((Hid.get_configuration_descriptors
        { data_if := 1
          write_ep := { address := 0x81, max_packet_size := 64, interval := 10,
                        configured := false, in_flight := none }
          descriptor := List.replicate 52 0 }
        { records := [], budget := 3 }).1.records =
      [DescriptorRecord.iface 1 0x03 0x00 0x00,
       DescriptorRecord.raw 0x21 [0x10, 0x01, 0x00, 0x01, 0x22, 0x34, 0x00],
       DescriptorRecord.endpoint 0x81 64 10] ∧
     52 % 256 + 256 * (52 / 256) = 52) := by
  have h := hid_descriptor_record_encodes_length
    { data_if := 1
      write_ep := { address := 0x81, max_packet_size := 64, interval := 10,
                    configured := false, in_flight := none }
      descriptor := List.replicate 52 0 }
    { records := [], budget := 3 } (by decide) (by decide)
  simpa using h

/-- C5: with enough writer budget, descriptor emission writes exactly three
records, in order: the interface descriptor with class 0x03, subclass 0x00,
protocol 0x00; the 7-byte HID record of type 0x21; the endpoint record for
the allocated interrupt-IN endpoint — and nothing else, returning success. -/
theorem get_configuration_descriptors_three_records
    (hid : Hid) (w : DescriptorWriter)
    (hb : 3 ≤ w.budget) :
    hid.get_configuration_descriptors w =
      ({ records := w.records ++
           [DescriptorRecord.iface hid.data_if USB_CLASS_HID USB_SUBCLASS_HID
              USB_PROTOCOL_HID,
            DescriptorRecord.raw DT_HID (hidDescriptorPayload hid.descriptor),
            DescriptorRecord.endpoint hid.write_ep.address
              hid.write_ep.max_packet_size hid.write_ep.interval],
         budget := w.budget - 3 }, .ok ()) := by
  obtain ⟨recs, b⟩ := w
  have hb' : 3 ≤ b := hb
  obtain ⟨n, rfl⟩ : ∃ n, b = n + 3 := ⟨b - 3, by omega⟩
  simp [Hid.get_configuration_descriptors, DescriptorWriter.push]

/-- Witness for C5: concrete emission produces the three records in order. -/
theorem get_configuration_descriptors_three_records_witness :
    Hid.get_configuration_descriptors
        { data_if := 2
          write_ep := { address := 0x81, max_packet_size := 64, interval := 10,
                        configured := false, in_flight := none }
          descriptor := [0xa1, 0x01, 0xc0] }
        { records := [], budget := 5 } =
      ({ records :=
           [DescriptorRecord.iface 2 USB_CLASS_HID USB_SUBCLASS_HID
              USB_PROTOCOL_HID,
            DescriptorRecord.raw DT_HID
              (hidDescriptorPayload [0xa1, 0x01, 0xc0]),
            DescriptorRecord.endpoint 0x81 64 10],
         budget := 2 }, .ok ()) :=
  get_configuration_descriptors_three_records _ _ (by decide)

/-- C7: if the writer runs out of space at any of the three write steps,
`get_configuration_descriptors` returns that same `BufferOverflow` error
unmodified, and no record beyond the failing step is written: exactly the
first `budget` of the three records appear. -/
theorem get_configuration_descriptors_propagates_error
    (hid : Hid) (w : DescriptorWriter)
    (hb : w.budget < 3) :
    (hid.get_configuration_descriptors w).2 =
      .error UsbError.BufferOverflow ∧
    (hid.get_configuration_descriptors w).1.records =
      w.records ++
        List.take w.budget
          [DescriptorRecord.iface hid.data_if USB_CLASS_HID USB_SUBCLASS_HID
             USB_PROTOCOL_HID,
           DescriptorRecord.raw DT_HID (hidDescriptorPayload hid.descriptor),
           DescriptorRecord.endpoint hid.write_ep.address
             hid.write_ep.max_packet_size hid.write_ep.interval] := by
  obtain ⟨recs, b⟩ := w
  have hb' : b < 3 := hb
  interval_cases b <;>
    simp [Hid.get_configuration_descriptors, DescriptorWriter.push]

/-- Witness for C7: a writer with room for only one record fails with
`BufferOverflow` after writing just the interface record. -/
theorem get_configuration_descriptors_propagates_error_witness :
    ((Hid.get_configuration_descriptors
        { data_if := 2
          write_ep := { address := 0x81, max_packet_size := 64, interval := 10,
                        configured := false, in_flight := none }
          descriptor := [0xa1, 0x01, 0xc0] }
        { records := [], budget := 1 }).2 =
      .error UsbError.BufferOverflow ∧
     (Hid.get_configuration_descriptors
        { data_if := 2
          write_ep := { address := 0x81, max_packet_size := 64, interval := 10,
                        configured := false, in_flight := none }
          descriptor := [0xa1, 0x01, 0xc0] }
        { records := [], budget := 1 }).1.records =
      [DescriptorRecord.iface 2 USB_CLASS_HID USB_SUBCLASS_HID
         USB_PROTOCOL_HID]) := by
  have h := get_configuration_descriptors_propagates_error
    { data_if := 2
      write_ep := { address := 0x81, max_packet_size := 64, interval := 10,
                    configured := false, in_flight := none }
      descriptor := [0xa1, 0x01, 0xc0] }
    { records := [], budget := 1 } (by decide)
  simpa using h

/-- C6: `send_report` makes exactly one write attempt on the interrupt-IN
endpoint: when the device is not configured it fails with `InvalidState`;
when the single outbound slot is occupied it fails with `WouldBlock`; when
the bytes exceed the 64-byte max packet size it fails with
`BufferOverflow`; otherwise it queues exactly that one packet and returns
the number of bytes accepted.  Every failing case leaves the driver — in
particular the endpoint's slot — unchanged: nothing is queued. -/
theorem send_report_single_attempt
    (hid : Hid) (reportBytes : List Nat)
    (hmax : hid.write_ep.max_packet_size = 64) :
    (hid.write_ep.configured = false →
      hid.send_report reportBytes = (hid, .error UsbError.InvalidState)) ∧
    (hid.write_ep.configured = true → hid.write_ep.in_flight.isSome →
      hid.send_report reportBytes = (hid, .error UsbError.WouldBlock)) ∧
    (hid.write_ep.configured = true → hid.write_ep.in_flight = none →
      64 < reportBytes.length →
      hid.send_report reportBytes = (hid, .error UsbError.BufferOverflow)) ∧
    (hid.write_ep.configured = true → hid.write_ep.in_flight = none →
      reportBytes.length ≤ 64 →
      hid.send_report reportBytes =
        ({ hid with write_ep :=
             { hid.write_ep with in_flight := some reportBytes } },
         .ok reportBytes.length)) := by
  unfold Hid.send_report EndpointIn.write
  refine ⟨fun hc => ?_, fun hc hb => ?_, fun hc hb hl => ?_,
    fun hc hb hl => ?_⟩
  · simp [hc]
  · simp [hc, hb]
  · simp [hc, hb, hmax, hl]
  · simp [hc, hb, hmax, Nat.not_lt.mpr hl]

/-- Witness for C6: a 65-byte report on a fresh configured endpoint fails
with `BufferOverflow` and queues nothing; a 3-byte report is accepted whole. -/
theorem send_report_single_attempt_witness :
    (Hid.send_report
        { data_if := 1
          write_ep := { address := 0x81, max_packet_size := 64, interval := 10,
                        configured := true, in_flight := none }
          descriptor := [0xa1, 0x01, 0xc0] }
        (List.replicate 65 0) =
      ({ data_if := 1
         write_ep := { address := 0x81, max_packet_size := 64, interval := 10,
                       configured := true, in_flight := none }
         descriptor := [0xa1, 0x01, 0xc0] },
       .error UsbError.BufferOverflow)) ∧
    (Hid.send_report
        { data_if := 1
          write_ep := { address := 0x81, max_packet_size := 64, interval := 10,
                        configured := true, in_flight := none }
          descriptor := [0xa1, 0x01, 0xc0] }
        [7, 8, 9] =
      ({ data_if := 1
         write_ep := { address := 0x81, max_packet_size := 64, interval := 10,
                       configured := true, in_flight := some [7, 8, 9] }
         descriptor := [0xa1, 0x01, 0xc0] },
       .ok 3)) :=
  ⟨((send_report_single_attempt _ (List.replicate 65 0)
      rfl).2.2.1) rfl rfl (by decide),
   ((send_report_single_attempt _ [7, 8, 9]
      rfl).2.2.2) rfl rfl (by decide)⟩

/-- C8: none of the three operations reassigns the driver's persistent
state: control dispatch and report send return a driver whose interface
number, bound ReportDescriptor and endpoint allocation (address, max
packet size, interval) all equal the input's, and after either operation
descriptor emission produces exactly the same output as before. -/
theorem driver_state_fixed_at_construction
    (hid : Hid) (xfer : ControlIn) (reportBytes : List Nat)
    (w : DescriptorWriter) :
    ((hid.control_in xfer).1.data_if = hid.data_if ∧
     (hid.control_in xfer).1.descriptor = hid.descriptor ∧
     (hid.control_in xfer).1.write_ep = hid.write_ep) ∧
    ((hid.send_report reportBytes).1.data_if = hid.data_if ∧
     (hid.send_report reportBytes).1.descriptor = hid.descriptor ∧
     (hid.send_report reportBytes).1.write_ep.address =
       hid.write_ep.address ∧
     (hid.send_report reportBytes).1.write_ep.max_packet_size =
       hid.write_ep.max_packet_size ∧
     (hid.send_report reportBytes).1.write_ep.interval =
       hid.write_ep.interval) ∧
    ((hid.control_in xfer).1.get_configuration_descriptors w =
       hid.get_configuration_descriptors w ∧
     (hid.send_report reportBytes).1.get_configuration_descriptors w =
       hid.get_configuration_descriptors w) := by
  have hc := Hid.control_in_fst hid xfer
  have hs : (hid.send_report reportBytes).1.data_if = hid.data_if ∧
      (hid.send_report reportBytes).1.descriptor = hid.descriptor ∧
      (hid.send_report reportBytes).1.write_ep.address =
        hid.write_ep.address ∧
      (hid.send_report reportBytes).1.write_ep.max_packet_size =
        hid.write_ep.max_packet_size ∧
      (hid.send_report reportBytes).1.write_ep.interval =
        hid.write_ep.interval := by
    rw [Hid.send_report_eq]
    have h := EndpointIn.write_preserves_alloc hid.write_ep reportBytes
    exact ⟨rfl, rfl, h.1, h.2.1, h.2.2⟩
  refine ⟨⟨by rw [hc], by rw [hc], by rw [hc]⟩, hs, ?_, ?_⟩
  · rw [hc]
  · exact Hid.get_configuration_descriptors_congr _ _ hs.1 hs.2.1 hs.2.2.1
      hs.2.2.2.1 hs.2.2.2.2 w

/-- C9: descriptor emission is deterministic in the bound ReportDescriptor
and the allocated resources: two driver instances that agree on the
interface number, the descriptor bytes and the endpoint allocation produce
byte-identical descriptor output on any writer, whatever their runtime
endpoint state. -/
theorem descriptor_emission_deterministic
    (h1 h2 : Hid) (w : DescriptorWriter)
    (hif : h1.data_if = h2.data_if)
    (hdesc : h1.descriptor = h2.descriptor)
    (haddr : h1.write_ep.address = h2.write_ep.address)
    (hmp : h1.write_ep.max_packet_size = h2.write_ep.max_packet_size)
    (hint : h1.write_ep.interval = h2.write_ep.interval) :
    h1.get_configuration_descriptors w = h2.get_configuration_descriptors w :=
  Hid.get_configuration_descriptors_congr h1 h2 hif hdesc haddr hmp hint w

/-- Witness for C9: the same driver before and after the bus is configured
and a packet is in flight emits identical descriptors. -/
theorem descriptor_emission_deterministic_witness :
    Hid.get_configuration_descriptors
        { data_if := 1
          write_ep := { address := 0x81, max_packet_size := 64, interval := 10,
                        configured := false, in_flight := none }
          descriptor := [0xa1, 0x01, 0xc0] }
        { records := [], budget := 3 } =
      Hid.get_configuration_descriptors
        { data_if := 1
          write_ep := { address := 0x81, max_packet_size := 64, interval := 10,
                        configured := true, in_flight := some [7, 8, 9] }
          descriptor := [0xa1, 0x01, 0xc0] }
        { records := [], budget := 3 } :=
  descriptor_emission_deterministic _ _ _ rfl rfl rfl rfl rfl

end UsbdHidDevice
